import Mathlib

set_option maxRecDepth 8000

/-!
Verification of the route/tracking data-fusion engine of the Maps repository.

The definitions below are a shallow embedding of the TypeScript source:
  - src/utils/shipmentData.ts  (coordinate resolver, waypoint synthesizer,
    milestone normalizer, tracking fusion, vessel snapping)
  - the ShipmentCard component (route stops and progress computation)

Numbers: the source uses JavaScript numbers.  Table coordinates, the hash
fallback and progress arithmetic are exact decimal/integer arithmetic in the
source, embedded as rationals and integers.  Trigonometric route geometry is
embedded over the reals.  Dates are embedded as integer timestamps.
-/

/-- JavaScript String.toLowerCase restricted to ASCII input. -/
def jsToLower (s : String) : String := ⟨s.data.map Char.toLower⟩

/-- JavaScript String.toUpperCase restricted to ASCII input. -/
def jsToUpper (s : String) : String := ⟨s.data.map Char.toUpper⟩

/-- JavaScript String.trim: strip leading and trailing whitespace. -/
def jsTrim (s : String) : String :=
  ⟨((s.data.dropWhile Char.isWhitespace).reverse.dropWhile Char.isWhitespace).reverse⟩

/-- JavaScript String.includes: substring containment. -/
def strIncludes (s pat : String) : Bool :=
  s.data.tails.any fun t => pat.data.isPrefixOf t

/-- JavaScript s.split(",")[0]: the prefix before the first comma. -/
def firstSegment (s : String) : String := ⟨s.data.takeWhile (fun c => c ≠ ',')⟩

/-- PORT_COORDINATES from src/utils/shipmentData.ts, in source (insertion)
order; Object.entries iterates in that order. -/
def portCoordinates : List (String × ℚ × ℚ) :=
  [("SANTOS, BRAZIL", -23.9608, -46.3339),
   ("SANTOS", -23.9608, -46.3339),
   ("MUNDRA", 22.8394, 69.7197),
   ("MUNDRA, INDIA", 22.8394, 69.7197),
   ("NHAVA SHEVA", 18.9480, 72.9508),
   ("MUMBAI", 18.9388, 72.8354),
   ("MUHAMMAD BIN QASIM (PORT QASIM), PAKISTAN", 24.7854, 67.3480),
   ("PORT QASIM", 24.7854, 67.3480),
   ("KARACHI", 24.8414, 67.0011),
   ("KARACHI, PAKISTAN", 24.8414, 67.0011),
   ("JEBEL ALI", 25.0118, 55.1121),
   ("DUBAI", 25.2769, 55.2962),
   ("DUBAI, UAE", 25.2769, 55.2962),
   ("SINGAPORE", 1.2644, 103.8224),
   ("SHANGHAI", 31.2304, 121.4737),
   ("SHANGHAI, CHINA", 31.2304, 121.4737),
   ("NINGBO", 29.8683, 121.5440),
   ("NINGBO, CHINA", 29.8683, 121.5440),
   ("SHENZHEN", 22.5431, 114.0579),
   ("SHENZHEN, CHINA", 22.5431, 114.0579),
   ("QINGDAO, CHINA", 36.0667, 120.3833),
   ("LOS ANGELES", 33.7405, -118.2720),
   ("LOS ANGELES, USA", 33.7405, -118.2720),
   ("LONG BEACH", 33.7553, -118.2256),
   ("NEW YORK", 40.6635, -74.0354),
   ("NEW YORK, USA", 40.6635, -74.0354),
   ("ROTTERDAM", 51.9244, 4.4777),
   ("HAMBURG", 53.5395, 9.9847),
   ("ANTWERP", 51.2894, 4.3053)]

/-- LOCATION_COORDINATES (legacy table) from src/utils/shipmentData.ts,
in source order. -/
def locationCoordinates : List (String × ℚ × ℚ) :=
  [("QINGDAO, CHINA", 36.0667, 120.3833),
   ("SHANGHAI, CHINA", 31.2304, 121.4737),
   ("NINGBO, CHINA", 29.8683, 121.5440),
   ("GUANGZHOU, CHINA", 23.1291, 113.2644),
   ("SHENZHEN, CHINA", 22.5431, 114.0579),
   ("KARACHI, PAKISTAN", 24.8607, 67.0011),
   ("PORT QASIM, PAKISTAN", 24.7667, 67.3333),
   ("MUHAMMAD BIN QASIM (PORT QASIM), PAKISTAN", 24.7667, 67.3333),
   ("KHALIFA, ABU DHABI", 24.4539, 54.3773),
   ("DUBAI, UAE", 25.2048, 55.2708),
   ("LAEM CHABANG, THAILAND", 13.0833, 100.8833),
   ("BANGKOK, THAILAND", 13.7563, 100.5018),
   ("BUSAN, SOUTH KOREA", 35.1796, 129.0756),
   ("SEOUL, SOUTH KOREA", 37.5665, 126.9780),
   ("NORFLOK, USA", 36.8468, -76.2852),
   ("NORFOLK, USA", 36.8468, -76.2852),
   ("NEW YORK, USA", 40.7128, -74.0060),
   ("LOS ANGELES, USA", 34.0522, -118.2437),
   ("SANTOS, BRAZIL", -23.9608, -46.3331),
   ("SAO PAULO, BRAZIL", -23.5505, -46.6333),
   ("MUNDRA", 22.8397, 69.7214),
   ("MUMBAI, INDIA", 19.0760, 72.8777),
   ("MESAIEED, QATAR", 24.9924, 51.5472),
   ("DOHA, QATAR", 25.2854, 51.5310)]

/-- Exact key lookup in a coordinate table. -/
def tableExact (table : List (String × ℚ × ℚ)) (key : String) : Option (ℚ × ℚ) :=
  (table.find? fun e => e.1 == key).map (·.2)

/-- The first partial-match loop over PORT_COORDINATES:
normalized.includes(keyNormalized.split(",")[0]) or
keyNormalized.includes(normalized.split(",")[0]); first match wins. -/
def portPartialMatch (normalized : String) : Option (ℚ × ℚ) :=
  (portCoordinates.find? fun e =>
    let keyNormalized := jsToUpper e.1
    strIncludes normalized (firstSegment keyNormalized) ||
      strIncludes keyNormalized (firstSegment normalized)).map (·.2)

/-- The second partial-match loop over LOCATION_COORDINATES:
normalized.includes(key.split(",")[0]) or key.includes(normalized.split(",")[0]). -/
def locationPartialMatch (normalized : String) : Option (ℚ × ℚ) :=
  (locationCoordinates.find? fun e =>
    strIncludes normalized (firstSegment e.1) ||
      strIncludes e.1 (firstSegment normalized)).map (·.2)

/-- The four table-lookup tiers of getLocationCoordinates, in source order:
exact port match, partial port match, exact legacy match, partial legacy match.
Returns none exactly when the source falls through to the hash fallback. -/
def lookupCoordinateTables (location : String) : Option (ℚ × ℚ) :=
  let normalized := jsTrim (jsToUpper location)
  match tableExact portCoordinates normalized with
  | some c => some c
  | none =>
    match portPartialMatch normalized with
    | some c => some c
    | none =>
      match tableExact locationCoordinates normalized with
      | some c => some c
      | none => locationPartialMatch normalized

/-- Wrap an integer to signed 32-bit range, as the JavaScript bitwise
coercions (hash |= 0, << on int32) do. -/
def wrap32 (n : ℤ) : ℤ := (n + 2 ^ 31) % 2 ^ 32 - 2 ^ 31

/-- The 32-bit rolling hash: hash = (hash << 5) - hash + charCodeAt(i); hash |= 0.
The shift left by 5 is a 32-bit operation, hence the inner wrap; charCodeAt
yields UTF-16 code units, which agree with the scalar value on ASCII input.
The hash runs over the ORIGINAL string, not the normalized one. -/
def jsHash (location : String) : ℤ :=
  location.data.foldl (fun hash c => wrap32 (wrap32 (hash * 32) - hash + (c.toNat : ℤ))) 0

/-- The deterministic hash fallback branch of getLocationCoordinates.
JavaScript % is the truncated remainder (sign of the dividend), Int.tmod;
hash >> 3 on an int32 is an arithmetic shift, i.e. floor division by 8. -/
def hashFallback (location : String) : ℚ × ℚ :=
  let hash := jsHash location
  ((((hash.tmod 12000 : ℤ) : ℚ) / 100) - 60,
   ((((hash.fdiv 8).tmod 34000 : ℤ) : ℚ) / 100) - 170)

/-- getLocationCoordinates from src/utils/shipmentData.ts: tiered table
lookup, then the deterministic hash fallback.  The declared return type in
the source is nullable; the fallback branch always returns a coordinate. -/
def getLocationCoordinates (location : String) : Option (ℚ × ℚ) :=
  match lookupCoordinateTables location with
  | some coords => some coords
  | none => some (hashFallback location)

/-- The truncated remainder by a positive modulus is strictly above its
negation; companion to Int.tmod_lt_of_pos. -/
lemma neg_lt_tmod (a : ℤ) {b : ℤ} (hb : 0 < b) : -b < a.tmod b := by
  rcases a with m | m
  · rw [Int.ofNat_eq_natCast]
    have h := Int.tmod_nonneg b (Int.natCast_nonneg m)
    omega
  · rcases b with n | n
    · rw [Int.ofNat_eq_natCast]
      rw [Int.ofNat_eq_natCast] at hb
      have hn : 0 < n := by exact_mod_cast hb
      have hred : (Int.negSucc m).tmod ((n : ℕ) : ℤ) = -(((Nat.succ m % n : ℕ) : ℤ)) := rfl
      have hlt : ((Nat.succ m % n : ℕ) : ℤ) < ((n : ℕ) : ℤ) := by
        exact_mod_cast Nat.mod_lt _ hn
      rw [hred]
      omega
    · exact absurd hb (Int.negSucc_lt_zero n).asymm

/-- The latitude component of the hash fallback, unfolded. -/
lemma hashFallback_fst (s : String) :
    (hashFallback s).1 = (((jsHash s).tmod 12000 : ℤ) : ℚ) / 100 - 60 := rfl

/-- The longitude component of the hash fallback, unfolded. -/
lemma hashFallback_snd (s : String) :
    (hashFallback s).2 = ((((jsHash s).fdiv 8).tmod 34000 : ℤ) : ℚ) / 100 - 170 := rfl

/-- C9: the resolver is total.  Every branch of getLocationCoordinates
returns a coordinate; the nullable annotation in the source is never
exercised because every table miss reaches the hash fallback. -/
theorem resolver_total : ∀ s : String, (getLocationCoordinates s).isSome = true := by
  intro s
  unfold getLocationCoordinates
  cases lookupCoordinateTables s <;> rfl

/-- C6 (amended): when every table lookup misses, the resolver returns the
deterministic hash fallback, whose latitude lies in (-180, 60) and longitude
in (-510, 170).  The fallback is a pure function of the input string, so the
same string always maps to the same coordinate. -/
theorem hash_fallback_range (s : String)
    (h : lookupCoordinateTables s = none) :
    getLocationCoordinates s = some (hashFallback s) ∧
    (-180 < (hashFallback s).1 ∧ (hashFallback s).1 < 60) ∧
    (-510 < (hashFallback s).2 ∧ (hashFallback s).2 < 170) := by
  refine ⟨?_, ?_, ?_⟩
  · unfold getLocationCoordinates
    rw [h]
  · have h1 : -12000 < (jsHash s).tmod 12000 := neg_lt_tmod _ (by norm_num)
    have h2 : (jsHash s).tmod 12000 < 12000 := Int.tmod_lt_of_pos _ (by norm_num)
    have h1q : (-12000 : ℚ) < (((jsHash s).tmod 12000 : ℤ) : ℚ) := by exact_mod_cast h1
    have h2q : (((jsHash s).tmod 12000 : ℤ) : ℚ) < 12000 := by exact_mod_cast h2
    rw [hashFallback_fst]
    constructor <;> linarith
  · have h1 : -34000 < ((jsHash s).fdiv 8).tmod 34000 := neg_lt_tmod _ (by norm_num)
    have h2 : ((jsHash s).fdiv 8).tmod 34000 < 34000 := Int.tmod_lt_of_pos _ (by norm_num)
    have h1q : (-34000 : ℚ) < ((((jsHash s).fdiv 8).tmod 34000 : ℤ) : ℚ) := by exact_mod_cast h1
    have h2q : ((((jsHash s).fdiv 8).tmod 34000 : ℤ) : ℚ) < 34000 := by exact_mod_cast h2
    rw [hashFallback_snd]
    constructor <;> linarith

/-- Witness for hash_fallback_range at the concrete unresolvable string
XYZZY. -/
theorem hash_fallback_range_witness :
    lookupCoordinateTables "XYZZY" = none ∧
    getLocationCoordinates "XYZZY" = some (hashFallback "XYZZY") ∧
    (-180 < (hashFallback "XYZZY").1 ∧ (hashFallback "XYZZY").1 < 60) ∧
    (-510 < (hashFallback "XYZZY").2 ∧ (hashFallback "XYZZY").2 < 170) := by
  have h : lookupCoordinateTables "XYZZY" = none := by decide
  exact ⟨h, hash_fallback_range "XYZZY" h⟩

/-- C6 (counterexample): the string ZZZZZZ misses every table, its 32-bit
hash is negative, and the fallback coordinate has latitude -62.56 and
longitude -400.32 — outside the claimed ranges of -60 to 60 and -170 to 170.
JavaScript % keeps the sign of the dividend, so a negative hash escapes the
claimed intervals. -/
theorem hash_fallback_out_of_claimed_range :
    lookupCoordinateTables "ZZZZZZ" = none ∧
    getLocationCoordinates "ZZZZZZ" = some (hashFallback "ZZZZZZ") ∧
    (hashFallback "ZZZZZZ").1 < -60 ∧ (hashFallback "ZZZZZZ").2 < -170 := by
  have h : lookupCoordinateTables "ZZZZZZ" = none := by decide
  have hlat : (jsHash "ZZZZZZ").tmod 12000 = -256 := by decide
  have hlng : ((jsHash "ZZZZZZ").fdiv 8).tmod 34000 = -23032 := by decide
  refine ⟨h, ?_, ?_, ?_⟩
  · unfold getLocationCoordinates
    rw [h]
  · rw [hashFallback_fst, hlat]
    norm_num
  · rw [hashFallback_snd, hlng]
    norm_num

/-- JavaScript Math.atan2 over the reals (the sign of negative zero is not
modelled).  Used by the haversine distance computations in the source. -/
noncomputable def atan2 (y x : ℝ) : ℝ :=
  if 0 < x then Real.arctan (y / x)
  else if x < 0 then
    (if 0 ≤ y then Real.arctan (y / x) + Real.pi else Real.arctan (y / x) - Real.pi)
  else if 0 < y then Real.pi / 2
  else if y < 0 then -(Real.pi / 2)
  else 0

/-- calculateDistance from src/utils/shipmentData.ts: haversine distance in
km with Earth radius 6371.  Floating-point trigonometry is idealized as real
arithmetic; decimal literals are exact rationals. -/
noncomputable def calculateDistance (lat1 lon1 lat2 lon2 : ℝ) : ℝ :=
  let dLat := (lat2 - lat1) * Real.pi / 180
  let dLon := (lon2 - lon1) * Real.pi / 180
  let a := Real.sin (dLat / 2) * Real.sin (dLat / 2) +
    Real.cos (lat1 * Real.pi / 180) * Real.cos (lat2 * Real.pi / 180) *
    Real.sin (dLon / 2) * Real.sin (dLon / 2)
  let c := 2 * atan2 (Real.sqrt a) (Real.sqrt (1 - a))
  6371 * c

/-- The distance computation inlined at the top of calculateSeaWaypoints
(same haversine formula, written with squares). -/
noncomputable def seaRouteDistance (point1 point2 : ℝ × ℝ) : ℝ :=
  let lat1 := point1.1 * Real.pi / 180
  let lat2 := point2.1 * Real.pi / 180
  let dLng := (point2.2 - point1.2) * Real.pi / 180
  let a := Real.sin ((lat2 - lat1) / 2) ^ 2 +
    Real.cos lat1 * Real.cos lat2 * Real.sin (dLng / 2) ^ 2
  let c := 2 * atan2 (Real.sqrt a) (Real.sqrt (1 - a))
  6371 * c

/-- The inlined synthesizer distance agrees with the calculateDistance
helper. -/
lemma seaRouteDistance_eq_calculateDistance (p1 p2 : ℝ × ℝ) :
    seaRouteDistance p1 p2 = calculateDistance p1.1 p1.2 p2.1 p2.2 := by
  unfold seaRouteDistance calculateDistance
  dsimp only
  have harg : (p2.1 * Real.pi / 180 - p1.1 * Real.pi / 180) / 2 =
      (p2.1 - p1.1) * Real.pi / 180 / 2 := by ring
  rw [harg]
  ring_nf

/-- calculateSeaWaypoints from src/utils/shipmentData.ts: zero, one or two
synthetic waypoints depending on the haversine distance, the one-waypoint
case pulled 10 percent and the two-waypoint case 15 percent toward the
equator on the latitude coordinate. -/
noncomputable def calculateSeaWaypoints (point1 point2 : ℝ × ℝ) : List (ℝ × ℝ) :=
  let distance := seaRouteDistance point1 point2
  if distance > 5000 then
    [((point1.1 + (point2.1 - point1.1) * 0.33) * 0.85,
      point1.2 + (point2.2 - point1.2) * 0.33),
     ((point1.1 + (point2.1 - point1.1) * 0.67) * 0.85,
      point1.2 + (point2.2 - point1.2) * 0.67)]
  else if distance > 2000 then
    [((point1.1 + (point2.1 - point1.1) * 0.5) * 0.9,
      point1.2 + (point2.2 - point1.2) * 0.5)]
  else []

/-- The haversine distance from a point to itself is zero. -/
lemma calculateDistance_self : calculateDistance 0 0 0 0 = 0 := by
  unfold calculateDistance atan2
  norm_num [Real.arctan_zero]

/-- Distance between (0,0) and (0,180): half the equator, 6371 * pi km. -/
lemma calculateDistance_lng180 : calculateDistance 0 0 0 180 = 6371 * Real.pi := by
  unfold calculateDistance
  dsimp only
  have h1 : ((180:ℝ) - 0) * Real.pi / 180 / 2 = Real.pi / 2 := by ring
  have h2 : ((0:ℝ) - 0) * Real.pi / 180 / 2 = 0 := by ring
  have h3 : (0:ℝ) * Real.pi / 180 = 0 := by ring
  rw [h1, h2, h3]
  rw [Real.sin_zero, Real.cos_zero, Real.sin_pi_div_two]
  norm_num [atan2]
  ring_nf

/-- Distance between (0,0) and (30,0): 30 degrees of latitude, 6371 * pi / 6 km. -/
lemma calculateDistance_lat30 : calculateDistance 0 0 30 0 = 6371 * (Real.pi / 6) := by
  unfold calculateDistance
  dsimp only
  have h1 : ((30:ℝ) - 0) * Real.pi / 180 / 2 = Real.pi / 12 := by ring
  have h2 : ((0:ℝ) - 0) * Real.pi / 180 / 2 = 0 := by ring
  rw [h1, h2, Real.sin_zero]
  have hsin : 0 ≤ Real.sin (Real.pi / 12) :=
    Real.sin_nonneg_of_nonneg_of_le_pi (by positivity) (by linarith [Real.pi_pos])
  have hcos : 0 < Real.cos (Real.pi / 12) := by
    apply Real.cos_pos_of_mem_Ioo
    constructor
    · nlinarith [Real.pi_pos]
    · nlinarith [Real.pi_pos]
  have hs : Real.sqrt (Real.sin (Real.pi / 12) * Real.sin (Real.pi / 12)) =
      Real.sin (Real.pi / 12) := Real.sqrt_mul_self hsin
  have ha : Real.sin (Real.pi / 12) * Real.sin (Real.pi / 12) +
      Real.cos ((0:ℝ) * Real.pi / 180) * Real.cos ((30:ℝ) * Real.pi / 180) * 0 * 0 =
      Real.sin (Real.pi / 12) * Real.sin (Real.pi / 12) := by ring
  rw [ha, hs]
  have hone : 1 - Real.sin (Real.pi / 12) * Real.sin (Real.pi / 12) =
      Real.cos (Real.pi / 12) * Real.cos (Real.pi / 12) := by
    have hpy := Real.sin_sq_add_cos_sq (Real.pi / 12)
    rw [pow_two, pow_two] at hpy
    linarith
  rw [hone, Real.sqrt_mul_self hcos.le]
  unfold atan2
  rw [if_pos hcos, ← Real.tan_eq_sin_div_cos,
    Real.arctan_tan (by linarith [Real.pi_pos]) (by linarith [Real.pi_pos])]
  ring

/-- calculateSeaWaypoints with its inlined distance rewritten through
calculateDistance. -/
lemma calculateSeaWaypoints_eq (p1 p2 : ℝ × ℝ) :
    calculateSeaWaypoints p1 p2 =
      if calculateDistance p1.1 p1.2 p2.1 p2.2 > 5000 then
        [((p1.1 + (p2.1 - p1.1) * 0.33) * 0.85, p1.2 + (p2.2 - p1.2) * 0.33),
         ((p1.1 + (p2.1 - p1.1) * 0.67) * 0.85, p1.2 + (p2.2 - p1.2) * 0.67)]
      else if calculateDistance p1.1 p1.2 p2.1 p2.2 > 2000 then
        [((p1.1 + (p2.1 - p1.1) * 0.5) * 0.9, p1.2 + (p2.2 - p1.2) * 0.5)]
      else [] := by
  unfold calculateSeaWaypoints
  dsimp only
  rw [seaRouteDistance_eq_calculateDistance]

/-- C7: the synthesizer emits exactly 0 waypoints when the haversine
distance is at most 2000 km, exactly 1 when it is in (2000, 5000], and
exactly 2 when it exceeds 5000 km. -/
theorem synthesizer_waypoint_count (p1 p2 : ℝ × ℝ) :
    (calculateDistance p1.1 p1.2 p2.1 p2.2 ≤ 2000 → calculateSeaWaypoints p1 p2 = []) ∧
    (2000 < calculateDistance p1.1 p1.2 p2.1 p2.2 ∧
        calculateDistance p1.1 p1.2 p2.1 p2.2 ≤ 5000 →
      (calculateSeaWaypoints p1 p2).length = 1) ∧
    (5000 < calculateDistance p1.1 p1.2 p2.1 p2.2 →
      (calculateSeaWaypoints p1 p2).length = 2) := by
  rw [calculateSeaWaypoints_eq]
  refine ⟨?_, ?_, ?_⟩
  · intro h
    split_ifs with h1 h2
    · linarith
    · linarith
    · rfl
  · rintro ⟨h3, h4⟩
    split_ifs with h1
    · linarith
    · rfl
  · intro h
    rw [if_pos h]
    rfl

/-- Witness for synthesizer_waypoint_count: a zero-distance pair, a
30-degree pair with distance 6371 pi / 6 in (2000, 5000], and a 180-degree
pair with distance 6371 pi > 5000. -/
theorem synthesizer_waypoint_count_witness :
    (calculateDistance 0 0 0 0 ≤ 2000 ∧ calculateSeaWaypoints (0, 0) (0, 0) = []) ∧
    (2000 < calculateDistance 0 0 30 0 ∧ calculateDistance 0 0 30 0 ≤ 5000 ∧
      (calculateSeaWaypoints (0, 0) (30, 0)).length = 1) ∧
    (5000 < calculateDistance 0 0 0 180 ∧
      (calculateSeaWaypoints (0, 0) (0, 180)).length = 2) := by
  have e0 : calculateDistance 0 0 0 0 ≤ 2000 := by
    rw [calculateDistance_self]; norm_num
  have e1 : 2000 < calculateDistance 0 0 30 0 := by
    rw [calculateDistance_lat30]; nlinarith [Real.pi_gt_three]
  have e2 : calculateDistance 0 0 30 0 ≤ 5000 := by
    rw [calculateDistance_lat30]; nlinarith [Real.pi_le_four]
  have e3 : 5000 < calculateDistance 0 0 0 180 := by
    rw [calculateDistance_lng180]; nlinarith [Real.pi_gt_three]
  exact ⟨⟨e0, (synthesizer_waypoint_count (0, 0) (0, 0)).1 e0⟩,
    ⟨e1, e2, (synthesizer_waypoint_count (0, 0) (30, 0)).2.1 ⟨e1, e2⟩⟩,
    ⟨e3, (synthesizer_waypoint_count (0, 0) (0, 180)).2.2 e3⟩⟩

/-- C8 (amended): for a pair farther apart than 5000 km, the two waypoints
sit at the 0.33 and 0.67 interpolation marks (the source uses the literals
0.33 and 0.67, not exactly one third and two thirds), with the latitude then
scaled by 0.85 and the longitude left at the interpolated value. -/
theorem long_route_waypoints (p1 p2 : ℝ × ℝ)
    (h : 5000 < calculateDistance p1.1 p1.2 p2.1 p2.2) :
    calculateSeaWaypoints p1 p2 =
      [((p1.1 + (p2.1 - p1.1) * 0.33) * 0.85, p1.2 + (p2.2 - p1.2) * 0.33),
       ((p1.1 + (p2.1 - p1.1) * 0.67) * 0.85, p1.2 + (p2.2 - p1.2) * 0.67)] := by
  rw [calculateSeaWaypoints_eq, if_pos h]

/-- Witness for long_route_waypoints at the pair (0,0), (0,180). -/
theorem long_route_waypoints_witness :
    5000 < calculateDistance 0 0 0 180 ∧
    calculateSeaWaypoints (0, 0) (0, 180) =
      [(((0:ℝ) + ((0:ℝ) - 0) * 0.33) * 0.85, (0:ℝ) + ((180:ℝ) - 0) * 0.33),
       (((0:ℝ) + ((0:ℝ) - 0) * 0.67) * 0.85, (0:ℝ) + ((180:ℝ) - 0) * 0.67)] := by
  have e3 : 5000 < calculateDistance 0 0 0 180 := by
    rw [calculateDistance_lng180]; nlinarith [Real.pi_gt_three]
  exact ⟨e3, long_route_waypoints (0, 0) (0, 180) e3⟩

/-- C8 (counterexample): at (0,0) and (0,180) the distance exceeds 5000 km
and the first waypoint has longitude 59.4, not the one-third interpolation
mark 60 claimed by the spec. -/
theorem long_route_waypoints_not_at_thirds :
    5000 < calculateDistance 0 0 0 180 ∧
    calculateSeaWaypoints (0, 0) (0, 180) = [(0, 59.4), (0, 120.6)] ∧
    ((0:ℝ) + (180 - 0) * (1 / 3)) ≠ 59.4 := by
  have e3 : 5000 < calculateDistance 0 0 0 180 := by
    rw [calculateDistance_lng180]; nlinarith [Real.pi_gt_three]
  refine ⟨e3, ?_, by norm_num⟩
  rw [calculateSeaWaypoints_eq, if_pos e3]
  norm_num

/-- Origin or destination port record inside route_info of the tracking feed. -/
structure PortInfo where
  port_name : String
  port_code : String
  latitude : ℝ
  longitude : ℝ

/-- A transshipment port record of the tracking feed. -/
structure TransshipmentPort where
  port_name : String
  port_code : String
  port_city : String
  port_country : String
  latitude : ℝ
  longitude : ℝ
  arrival_date : String
  departure_date : String
  vessel_at_transshipment : String
  vessel_imo : String

/-- current_position of the tracking feed. -/
structure CurrentPosition where
  latitude : ℝ
  longitude : ℝ
  location_name : String
  timestamp : String
  vessel_name : Option String
  vessel_imo : Option String
  status : String

/-- route_info of the tracking feed. -/
structure RouteInfo where
  origin : PortInfo
  destination : PortInfo
  transshipment_ports : List TransshipmentPort

/-- route_coordinates of the tracking feed; points are (latitude, longitude). -/
structure RouteCoordinates where
  completed_route : List (ℝ × ℝ)
  remaining_route : List (ℝ × ℝ)

/-- One per-shipment record of the authoritative tracking feed
(ShipmentTrackingData in the source). -/
structure ShipmentTrackingData where
  shipment_order_number : String
  shipment_id : String
  shipment_status : String
  route_info : RouteInfo
  route_coordinates : RouteCoordinates
  current_position : CurrentPosition

/-- Distance from the target position to a route point, as called inside the
findClosestSeaWaypoint loop. -/
noncomputable def distTo (targetLat targetLon : ℝ) (p : ℝ × ℝ) : ℝ :=
  calculateDistance targetLat targetLon p.1 p.2

/-- The scanning loop of findClosestSeaWaypoint: keep the running best point
and its distance, replacing it only on a strictly smaller distance (so the
first point of a tie is kept). -/
noncomputable def closestLoop (targetLat targetLon : ℝ) :
    (ℝ × ℝ) → ℝ → List (ℝ × ℝ) → (ℝ × ℝ)
  | best, _, [] => best
  | best, bestDist, q :: qs =>
    if distTo targetLat targetLon q < bestDist then
      closestLoop targetLat targetLon q (distTo targetLat targetLon q) qs
    else
      closestLoop targetLat targetLon best bestDist qs

/-- findClosestSeaWaypoint from src/utils/shipmentData.ts.  The source
initializes minDistance to Infinity and closestPoint to routePoints[0]; the
first loop iteration always installs the first point because every finite
distance is below Infinity, so the loop is equivalent to starting from the
head with its own distance. -/
noncomputable def findClosestSeaWaypoint (targetLat targetLon : ℝ)
    (routePoints : List (ℝ × ℝ)) : Option (ℝ × ℝ) :=
  match routePoints with
  | [] => none
  | p :: ps =>
    some (closestLoop targetLat targetLon p (distTo targetLat targetLon p) ps)

/-- The loop result is the running best or one of the scanned points. -/
lemma closestLoop_mem (targetLat targetLon : ℝ) :
    ∀ (rest : List (ℝ × ℝ)) (best : ℝ × ℝ) (bestDist : ℝ),
      closestLoop targetLat targetLon best bestDist rest ∈ best :: rest := by
  intro rest
  induction rest with
  | nil => intro best bestDist; simp [closestLoop]
  | cons q qs ih =>
    intro best bestDist
    unfold closestLoop
    split_ifs with h
    · have hm := ih q (distTo targetLat targetLon q)
      rcases List.mem_cons.mp hm with h1 | h1
      · rw [h1]; simp
      · rw [List.mem_cons]
        exact Or.inr (List.mem_cons.mpr (Or.inr h1))
    · have hm := ih best bestDist
      rcases List.mem_cons.mp hm with h1 | h1
      · rw [h1]; simp
      · rw [List.mem_cons]
        exact Or.inr (List.mem_cons.mpr (Or.inr h1))

/-- A successful findClosestSeaWaypoint returns a member of the scanned list. -/
lemma findClosestSeaWaypoint_mem (targetLat targetLon : ℝ)
    (l : List (ℝ × ℝ)) (r : ℝ × ℝ)
    (h : findClosestSeaWaypoint targetLat targetLon l = some r) : r ∈ l := by
  cases l with
  | nil => simp [findClosestSeaWaypoint] at h
  | cons p ps =>
    unfold findClosestSeaWaypoint at h
    have hm := closestLoop_mem targetLat targetLon ps p (distTo targetLat targetLon p)
    rw [Option.some_inj.mp h] at hm
    exact hm

/-- Unfolding equation of the loop for the empty list. -/
lemma closestLoop_nil (targetLat targetLon : ℝ) (best : ℝ × ℝ) (bestDist : ℝ) :
    closestLoop targetLat targetLon best bestDist [] = best := rfl

/-- Unfolding equation of the loop for a cons cell. -/
lemma closestLoop_cons (targetLat targetLon : ℝ) (best : ℝ × ℝ) (bestDist : ℝ)
    (q : ℝ × ℝ) (qs : List (ℝ × ℝ)) :
    closestLoop targetLat targetLon best bestDist (q :: qs) =
      if distTo targetLat targetLon q < bestDist then
        closestLoop targetLat targetLon q (distTo targetLat targetLon q) qs
      else
        closestLoop targetLat targetLon best bestDist qs := rfl

/-- Specification of the scanning loop when started with the distance of the
running best: the result is either the running best (no strictly closer
scanned point) or the first scanned point attaining the minimum distance,
strictly closer than the running best. -/
lemma closestLoop_spec (targetLat targetLon : ℝ) :
    ∀ (rest : List (ℝ × ℝ)) (best : ℝ × ℝ),
      (closestLoop targetLat targetLon best (distTo targetLat targetLon best) rest = best ∧
        ∀ q ∈ rest, distTo targetLat targetLon best ≤ distTo targetLat targetLon q) ∨
      (∃ i, ∃ hi : i < rest.length,
        closestLoop targetLat targetLon best (distTo targetLat targetLon best) rest =
          rest.get ⟨i, hi⟩ ∧
        distTo targetLat targetLon (rest.get ⟨i, hi⟩) < distTo targetLat targetLon best ∧
        (∀ q ∈ rest,
          distTo targetLat targetLon (rest.get ⟨i, hi⟩) ≤ distTo targetLat targetLon q) ∧
        (∀ j, ∀ hj : j < rest.length, j < i →
          distTo targetLat targetLon (rest.get ⟨i, hi⟩) <
            distTo targetLat targetLon (rest.get ⟨j, hj⟩))) := by
  intro rest
  induction rest with
  | nil =>
    intro best
    left
    exact ⟨rfl, by simp⟩
  | cons q qs ih =>
    intro best
    by_cases hq : distTo targetLat targetLon q < distTo targetLat targetLon best
    · have hstep : closestLoop targetLat targetLon best
          (distTo targetLat targetLon best) (q :: qs) =
          closestLoop targetLat targetLon q (distTo targetLat targetLon q) qs := by
        rw [closestLoop_cons, if_pos hq]
      rw [hstep]
      rcases ih q with ⟨heq, hall⟩ | ⟨i, hi, heq, hlt, hall, hfirst⟩
      · right
        refine ⟨0, by simp, ?_, ?_, ?_, ?_⟩
        · simp only [List.get]
          exact heq
        · simp only [List.get]
          exact hq
        · intro r hr
          simp only [List.get]
          rcases List.mem_cons.mp hr with h1 | h1
          · rw [h1]
          · exact hall r h1
        · intro j hj hj0
          omega
      · right
        have hi1 : i + 1 < (q :: qs).length := by simpa using Nat.succ_lt_succ hi
        refine ⟨i + 1, hi1, ?_, ?_, ?_, ?_⟩
        · simp only [List.get]
          exact heq
        · simp only [List.get]
          exact lt_trans hlt hq
        · intro r hr
          simp only [List.get]
          rcases List.mem_cons.mp hr with h1 | h1
          · rw [h1]
            exact le_of_lt hlt
          · exact hall r h1
        · intro j hj hjlt
          cases j with
          | zero =>
            simp only [List.get]
            exact hlt
          | succ j' =>
            simp only [List.get]
            exact hfirst j' (by simpa using Nat.lt_of_succ_lt_succ hj) (by omega)
    · have hge : distTo targetLat targetLon best ≤ distTo targetLat targetLon q :=
        not_lt.mp hq
      have hstep : closestLoop targetLat targetLon best
          (distTo targetLat targetLon best) (q :: qs) =
          closestLoop targetLat targetLon best (distTo targetLat targetLon best) qs := by
        rw [closestLoop_cons, if_neg hq]
      rw [hstep]
      rcases ih best with ⟨heq, hall⟩ | ⟨i, hi, heq, hlt, hall, hfirst⟩
      · left
        refine ⟨heq, ?_⟩
        intro r hr
        rcases List.mem_cons.mp hr with h1 | h1
        · rw [h1]
          exact hge
        · exact hall r h1
      · right
        have hi1 : i + 1 < (q :: qs).length := by simpa using Nat.succ_lt_succ hi
        refine ⟨i + 1, hi1, ?_, ?_, ?_, ?_⟩
        · simp only [List.get]
          exact heq
        · simp only [List.get]
          exact hlt
        · intro r hr
          simp only [List.get]
          rcases List.mem_cons.mp hr with h1 | h1
          · rw [h1]
            exact le_of_lt (lt_of_lt_of_le hlt hge)
          · exact hall r h1
        · intro j hj hjlt
          cases j with
          | zero =>
            simp only [List.get]
            exact lt_of_lt_of_le hlt hge
          | succ j' =>
            simp only [List.get]
            exact hfirst j' (by simpa using Nat.lt_of_succ_lt_succ hj) (by omega)

/-- A successful findClosestSeaWaypoint returns the first point of the list
attaining the minimum distance to the target. -/
lemma findClosestSeaWaypoint_spec (targetLat targetLon : ℝ)
    (l : List (ℝ × ℝ)) (hne : l ≠ []) :
    ∃ r, findClosestSeaWaypoint targetLat targetLon l = some r ∧
      ∃ i, ∃ hi : i < l.length, r = l.get ⟨i, hi⟩ ∧
        (∀ q ∈ l, distTo targetLat targetLon (l.get ⟨i, hi⟩) ≤ distTo targetLat targetLon q) ∧
        (∀ j, ∀ hj : j < l.length, j < i →
          distTo targetLat targetLon (l.get ⟨i, hi⟩) <
            distTo targetLat targetLon (l.get ⟨j, hj⟩)) := by
  cases l with
  | nil => exact absurd rfl hne
  | cons p ps =>
    refine ⟨closestLoop targetLat targetLon p (distTo targetLat targetLon p) ps, rfl, ?_⟩
    rcases closestLoop_spec targetLat targetLon ps p with ⟨heq, hall⟩ |
      ⟨i, hi, heq, hlt, hall, hfirst⟩
    · refine ⟨0, by simp, ?_, ?_, ?_⟩
      · simp only [List.get]
        exact heq
      · intro r hr
        simp only [List.get]
        rcases List.mem_cons.mp hr with h1 | h1
        · rw [h1]
        · exact hall r h1
      · intro j hj hj0
        omega
    · have hi1 : i + 1 < (p :: ps).length := by simpa using Nat.succ_lt_succ hi
      refine ⟨i + 1, hi1, ?_, ?_, ?_⟩
      · simp only [List.get]
        exact heq
      · intro r hr
        simp only [List.get]
        rcases List.mem_cons.mp hr with h1 | h1
        · rw [h1]
          exact le_of_lt hlt
        · exact hall r h1
      · intro j hj hjlt
        cases j with
        | zero =>
          simp only [List.get]
          exact hlt
        | succ j' =>
          simp only [List.get]
          exact hfirst j' (by simpa using Nat.lt_of_succ_lt_succ hj) (by omega)

/-- Vessel marker position selection of getShipmentTrackingForMap
(src/utils/shipmentData.ts): at origin use the first remaining point, at
destination (or delivered/closed) the last completed point, otherwise the
closest remaining (then completed) point to the reported position; the
source array includes check is spelled out as the two string comparisons. -/
noncomputable def vesselPosition (td : ShipmentTrackingData) : ℝ × ℝ :=
  let completedRoute := td.route_coordinates.completed_route
  let remainingRoute := td.route_coordinates.remaining_route
  let currentPosition := (td.current_position.latitude, td.current_position.longitude)
  let isAtOrigin := completedRoute.length = 0
  let isAtDestination := remainingRoute.length = 0 ∨
    jsToLower td.shipment_status = "delivered" ∨ jsToLower td.shipment_status = "closed"
  if isAtOrigin ∧ remainingRoute.length > 0 then
    remainingRoute.headD currentPosition
  else if isAtDestination ∧ completedRoute.length > 0 then
    completedRoute.getLastD currentPosition
  else if remainingRoute.length > 0 then
    (findClosestSeaWaypoint currentPosition.1 currentPosition.2 remainingRoute).getD
      currentPosition
  else if completedRoute.length > 0 then
    (findClosestSeaWaypoint currentPosition.1 currentPosition.2 completedRoute).getD
      currentPosition
  else currentPosition

/-- The current-position part of the value returned by
getShipmentTrackingForMap; its lat/lng are overridden with the snapped
vessel position. -/
structure CurrentPositionView where
  lat : ℝ
  lng : ℝ
  vesselName : Option String
  vesselImo : Option String
  status : String
  locationName : String
  timestamp : String

/-- Origin/destination port part of the returned value. -/
structure PortView where
  lat : ℝ
  lng : ℝ
  name : String
  code : String

/-- Transshipment port part of the returned value. -/
structure TransshipmentView where
  lat : ℝ
  lng : ℝ
  name : String
  code : String
  city : String
  country : String
  arrivalDate : String
  departureDate : String
  vesselName : String
  vesselImo : String

/-- The full value returned by getShipmentTrackingForMap for a shipment with
a tracking record. -/
structure TrackingForMap where
  completedRoute : List (ℝ × ℝ)
  remainingRoute : List (ℝ × ℝ)
  currentPosition : CurrentPositionView
  origin : PortView
  destination : PortView
  transshipment : List TransshipmentView

/-- Body of getShipmentTrackingForMap once a tracking record is found: the
route polylines verbatim, the current position with lat/lng overridden by
the snapped vessel position, and the explicit port list. -/
noncomputable def trackingForMapData (td : ShipmentTrackingData) : TrackingForMap :=
  { completedRoute := td.route_coordinates.completed_route
    remainingRoute := td.route_coordinates.remaining_route
    currentPosition :=
      { lat := (vesselPosition td).1
        lng := (vesselPosition td).2
        vesselName := td.current_position.vessel_name
        vesselImo := td.current_position.vessel_imo
        status := td.current_position.status
        locationName := td.current_position.location_name
        timestamp := td.current_position.timestamp }
    origin :=
      { lat := td.route_info.origin.latitude
        lng := td.route_info.origin.longitude
        name := td.route_info.origin.port_name
        code := td.route_info.origin.port_code }
    destination :=
      { lat := td.route_info.destination.latitude
        lng := td.route_info.destination.longitude
        name := td.route_info.destination.port_name
        code := td.route_info.destination.port_code }
    transshipment := td.route_info.transshipment_ports.map fun port =>
      { lat := port.latitude
        lng := port.longitude
        name := port.port_name
        code := port.port_code
        city := port.port_city
        country := port.port_country
        arrivalDate := port.arrival_date
        departureDate := port.departure_date
        vesselName := port.vessel_at_transshipment
        vesselImo := port.vessel_imo } }

/-- getShipmentTrackingForMap from src/utils/shipmentData.ts: null when the
tracking feed has no record for the shipment, otherwise the map view. -/
noncomputable def getShipmentTrackingForMap
    (trackingData : Option ShipmentTrackingData) : Option TrackingForMap :=
  trackingData.map trackingForMapData

/-- C1: vessel snapping in the tracking-feed tier.  The map view carries the
snapped vesselPosition; when completedRoute is empty and remainingRoute is
not, the vessel is its head; when remainingRoute is empty or the status is
delivered/closed (with completedRoute non-empty), the vessel is the last
completed point; otherwise (both non-empty, in transit) it is the first
point of remainingRoute minimizing haversine distance to the raw reported
position. -/
theorem vessel_position_snapping (td : ShipmentTrackingData) :
    ((getShipmentTrackingForMap (some td)).map
        fun m => (m.currentPosition.lat, m.currentPosition.lng)) =
      some (vesselPosition td) ∧
    (∀ q rest, td.route_coordinates.completed_route = [] →
        td.route_coordinates.remaining_route = q :: rest →
      vesselPosition td = q) ∧
    ((td.route_coordinates.remaining_route = [] ∨
        jsToLower td.shipment_status = "delivered" ∨
        jsToLower td.shipment_status = "closed") →
      ∀ hne : td.route_coordinates.completed_route ≠ [],
        vesselPosition td = td.route_coordinates.completed_route.getLast hne) ∧
    (td.route_coordinates.completed_route ≠ [] →
      td.route_coordinates.remaining_route ≠ [] →
      ¬(jsToLower td.shipment_status = "delivered" ∨
          jsToLower td.shipment_status = "closed") →
      ∃ i, ∃ hi : i < td.route_coordinates.remaining_route.length,
        vesselPosition td = td.route_coordinates.remaining_route.get ⟨i, hi⟩ ∧
        (∀ q ∈ td.route_coordinates.remaining_route,
          distTo td.current_position.latitude td.current_position.longitude
              (td.route_coordinates.remaining_route.get ⟨i, hi⟩) ≤
            distTo td.current_position.latitude td.current_position.longitude q) ∧
        (∀ j, ∀ hj : j < td.route_coordinates.remaining_route.length, j < i →
          distTo td.current_position.latitude td.current_position.longitude
              (td.route_coordinates.remaining_route.get ⟨i, hi⟩) <
            distTo td.current_position.latitude td.current_position.longitude
              (td.route_coordinates.remaining_route.get ⟨j, hj⟩))) := by
  refine ⟨rfl, ?_, ?_, ?_⟩
  · intro q rest hc hr
    unfold vesselPosition
    dsimp only
    rw [hc, hr]
    rw [if_pos ⟨by simp, by simp⟩]
    exact List.headD_cons
  · intro hdel hne
    unfold vesselPosition
    dsimp only
    rw [if_neg fun hand => hne (List.length_eq_zero.mp hand.1)]
    have hdest : (td.route_coordinates.remaining_route.length = 0 ∨
        jsToLower td.shipment_status = "delivered" ∨
        jsToLower td.shipment_status = "closed") ∧
        td.route_coordinates.completed_route.length > 0 := by
      constructor
      · rcases hdel with h | h
        · exact Or.inl (by rw [h]; rfl)
        · exact Or.inr h
      · exact List.length_pos.mpr hne
    rw [if_pos hdest]
    rw [List.getLastD_eq_getLast?, List.getLast?_eq_getLast _ hne]
    rfl
  · intro hcne hrne hstat
    unfold vesselPosition
    dsimp only
    rw [if_neg fun hand => hcne (List.length_eq_zero.mp hand.1)]
    rw [if_neg fun hand => by
      rcases hand.1 with h | h
      · exact hrne (List.length_eq_zero.mp h)
      · exact hstat h]
    rw [if_pos (List.length_pos.mpr hrne)]
    obtain ⟨r, hsome, i, hi, hri, hall, hfirst⟩ :=
      findClosestSeaWaypoint_spec td.current_position.latitude
        td.current_position.longitude td.route_coordinates.remaining_route hrne
    refine ⟨i, hi, ?_, hall, hfirst⟩
    rw [hsome]
    simpa using hri

/-- Concrete tracking record still at origin: empty completed route,
one-point remaining route. -/
noncomputable def sampleTrackingAtOrigin : ShipmentTrackingData :=
  { shipment_order_number := "SO1"
    shipment_id := "S1"
    shipment_status := "in_transit"
    route_info :=
      { origin := { port_name := "A", port_code := "A1", latitude := 0, longitude := 0 }
        destination := { port_name := "B", port_code := "B1", latitude := 1, longitude := 1 }
        transshipment_ports := [] }
    route_coordinates := { completed_route := [], remaining_route := [(5, 6)] }
    current_position :=
      { latitude := 9, longitude := 9, location_name := "sea", timestamp := "t"
        vessel_name := none, vessel_imo := none, status := "sailing" } }

/-- Concrete delivered tracking record: empty remaining route, two completed
points. -/
noncomputable def sampleTrackingDelivered : ShipmentTrackingData :=
  { sampleTrackingAtOrigin with
    shipment_status := "delivered"
    route_coordinates := { completed_route := [(1, 2), (3, 4)], remaining_route := [] } }

/-- Concrete in-transit tracking record: one completed point, one remaining
point. -/
noncomputable def sampleTrackingInTransit : ShipmentTrackingData :=
  { sampleTrackingAtOrigin with
    route_coordinates := { completed_route := [(0, 0)], remaining_route := [(7, 8)] } }

/-- Witness for vessel_position_snapping: each of the three snapping cases
at a concrete tracking record. -/
theorem vessel_position_snapping_witness :
    vesselPosition sampleTrackingAtOrigin = (5, 6) ∧
    vesselPosition sampleTrackingDelivered = (3, 4) ∧
    vesselPosition sampleTrackingInTransit = (7, 8) := by
  refine ⟨?_, ?_, ?_⟩
  · exact (vessel_position_snapping sampleTrackingAtOrigin).2.1 (5, 6) [] rfl rfl
  · have h := (vessel_position_snapping sampleTrackingDelivered).2.2.1
      (Or.inr (Or.inl (by decide))) (by simp [sampleTrackingDelivered])
    simpa [sampleTrackingDelivered] using h
  · obtain ⟨i, hi, heq, -, -⟩ :=
      (vessel_position_snapping sampleTrackingInTransit).2.2.2
        (by simp [sampleTrackingInTransit]) (by simp [sampleTrackingInTransit]) (by decide)
    have hi0 : i = 0 := by
      have hlen : i < 1 := by simpa [sampleTrackingInTransit] using hi
      omega
    subst hi0
    simpa [sampleTrackingInTransit] using heq

/-- C10: the snapped vessel position always coincides with a completed-route
point, a remaining-route point, or the raw reported position. -/
theorem snapped_position_membership (td : ShipmentTrackingData) :
    ((getShipmentTrackingForMap (some td)).map
        fun m => (m.currentPosition.lat, m.currentPosition.lng)) =
      some (vesselPosition td) ∧
    (vesselPosition td ∈ td.route_coordinates.completed_route ∨
     vesselPosition td ∈ td.route_coordinates.remaining_route ∨
     vesselPosition td = (td.current_position.latitude, td.current_position.longitude)) := by
  refine ⟨rfl, ?_⟩
  unfold vesselPosition
  dsimp only
  split_ifs with h1 h2 h3 h4
  · right; left
    have hne : td.route_coordinates.remaining_route ≠ [] :=
      List.length_pos.mp h1.2
    cases hrem : td.route_coordinates.remaining_route with
    | nil => exact absurd hrem hne
    | cons a l => simp [List.headD_cons]
  · left
    have hne : td.route_coordinates.completed_route ≠ [] :=
      List.length_pos.mp h2.2
    rw [List.getLastD_eq_getLast?, List.getLast?_eq_getLast _ hne]
    exact List.getLast_mem hne
  · right; left
    have hne : td.route_coordinates.remaining_route ≠ [] :=
      List.length_pos.mp h3
    obtain ⟨r, hsome, -⟩ :=
      findClosestSeaWaypoint_spec td.current_position.latitude
        td.current_position.longitude td.route_coordinates.remaining_route hne
    rw [hsome]
    simpa using findClosestSeaWaypoint_mem _ _ _ _ hsome
  · left
    have hne : td.route_coordinates.completed_route ≠ [] :=
      List.length_pos.mp h4
    obtain ⟨r, hsome, -⟩ :=
      findClosestSeaWaypoint_spec td.current_position.latitude
        td.current_position.longitude td.route_coordinates.completed_route hne
    rw [hsome]
    simpa using findClosestSeaWaypoint_mem _ _ _ _ hsome
  · right; right; rfl

/-- Derived milestone status. -/
inductive MilestoneStatus where
  | completed
  | current
  | upcoming
deriving DecidableEq

/-- A raw milestone record of the shipment list feed (JsonMilestone in the
source); start_date holds the parsed ISO timestamp, none for null. -/
structure JsonMilestone where
  milestone_type_display : String
  milestone_type : ℤ
  start_date : Option ℤ
  status : Option String
  location : Option String

/-- A transformed milestone; date falls back to the evaluation time (the
source uses new Date() when start_date is null). -/
structure Milestone where
  id : String
  name : String
  date : ℤ
  location : String
  status : MilestoneStatus

/-- JavaScript a || b for strings: the empty string is falsy. -/
def jsOrString (a : Option String) (b : String) : String :=
  match a with
  | some s => if s = "" then b else s
  | none => b

/-- The predecessor count used by transformMilestone: milestones at an index
below this one whose start_date exists and is at most now. -/
def completedCountBefore (allMilestones : List JsonMilestone) (index : ℕ) (now : ℤ) : ℕ :=
  ((allMilestones.take index).filter fun m =>
    match m.start_date with
    | some d => decide (d ≤ now)
    | none => false).length

/-- transformMilestone from src/utils/shipmentData.ts: anchor types 0-1 to
the origin and 2-3 to the destination, mark completed iff a date exists and
is at most now, current iff the completed predecessor count equals the
index, upcoming otherwise. -/
def transformMilestone (jsonMilestone : JsonMilestone) (index : ℕ)
    (allMilestones : List JsonMilestone) (origin destination : String)
    (now : ℤ) : Milestone :=
  let date := match jsonMilestone.start_date with
    | some d => d
    | none => now
  let location :=
    if jsonMilestone.milestone_type = 0 ∨ jsonMilestone.milestone_type = 1 then origin
    else if jsonMilestone.milestone_type = 2 ∨ jsonMilestone.milestone_type = 3 then
      destination
    else jsOrString jsonMilestone.location "In Transit"
  let status :=
    match jsonMilestone.start_date with
    | some d =>
      if d ≤ now then MilestoneStatus.completed
      else if completedCountBefore allMilestones index now = index then
        MilestoneStatus.current
      else MilestoneStatus.upcoming
    | none =>
      if completedCountBefore allMilestones index now = index then
        MilestoneStatus.current
      else MilestoneStatus.upcoming
  { id := "milestone-" ++ toString index
    name := jsonMilestone.milestone_type_display
    date := date
    location := location
    status := status }

/-- The milestone mapping of transformJsonShipment: every record is kept,
each transformed with its index and the whole list. -/
def transformMilestones (ms : List JsonMilestone) (origin destination : String)
    (now : ℤ) : List Milestone :=
  ms.enum.map fun p => transformMilestone p.2 p.1 ms origin destination now

/-- Scenario record with milestone type k and a date. -/
def scenarioDated (k : ℤ) (d : ℤ) : JsonMilestone :=
  { milestone_type_display := "M", milestone_type := k, start_date := some d
    status := none, location := none }

/-- Scenario record with milestone type k and no date. -/
def scenarioUndated (k : ℤ) : JsonMilestone :=
  { milestone_type_display := "M", milestone_type := k, start_date := none
    status := none, location := none }

/-- C3: status classification of the milestone normalizer.  A milestone is
completed iff it has a date at most now; a non-completed milestone is
current iff the number of completed predecessors equals its index (with or
without a date); upcoming otherwise.  In particular the list
[dated type 0, undated types 1-3] classifies as
[completed, current, upcoming, upcoming] when the date is at most now. -/
theorem milestone_status_classification (jm : JsonMilestone) (index : ℕ)
    (allMilestones : List JsonMilestone) (origin destination : String)
    (now d1 : ℤ) :
    (((transformMilestone jm index allMilestones origin destination now).status =
        MilestoneStatus.completed) ↔ (∃ d, jm.start_date = some d ∧ d ≤ now)) ∧
    (((transformMilestone jm index allMilestones origin destination now).status =
        MilestoneStatus.current) ↔
      (¬(∃ d, jm.start_date = some d ∧ d ≤ now) ∧
        completedCountBefore allMilestones index now = index)) ∧
    (((transformMilestone jm index allMilestones origin destination now).status =
        MilestoneStatus.upcoming) ↔
      (¬(∃ d, jm.start_date = some d ∧ d ≤ now) ∧
        completedCountBefore allMilestones index now ≠ index)) ∧
    (d1 ≤ now →
      (transformMilestones
          [scenarioDated 0 d1, scenarioUndated 1, scenarioUndated 2, scenarioUndated 3]
          origin destination now).map Milestone.status =
        [MilestoneStatus.completed, MilestoneStatus.current,
         MilestoneStatus.upcoming, MilestoneStatus.upcoming]) := by
  refine ⟨?_, ?_, ?_, ?_⟩
  · rcases hsd : jm.start_date with - | d
    · by_cases hc : completedCountBefore allMilestones index now = index <;>
        simp [transformMilestone, hsd, hc]
    · by_cases hd : d ≤ now
      · simp [transformMilestone, hsd, hd]
      · by_cases hc : completedCountBefore allMilestones index now = index <;>
          simp [transformMilestone, hsd, hd, hc]
  · rcases hsd : jm.start_date with - | d
    · by_cases hc : completedCountBefore allMilestones index now = index <;>
        simp [transformMilestone, hsd, hc]
    · by_cases hd : d ≤ now
      · simp [transformMilestone, hsd, hd]
      · by_cases hc : completedCountBefore allMilestones index now = index <;>
          simp [transformMilestone, hsd, hd, hc]
  · rcases hsd : jm.start_date with - | d
    · by_cases hc : completedCountBefore allMilestones index now = index <;>
        simp [transformMilestone, hsd, hc]
    · by_cases hd : d ≤ now
      · simp [transformMilestone, hsd, hd]
      · by_cases hc : completedCountBefore allMilestones index now = index <;>
          simp [transformMilestone, hsd, hd, hc]
  · intro hd1
    simp [transformMilestones, transformMilestone, completedCountBefore,
      scenarioDated, scenarioUndated, List.enum, hd1]

/-- Witness for milestone_status_classification at concrete values. -/
theorem milestone_status_classification_witness :
    (0 : ℤ) ≤ 0 ∧
    (transformMilestones
        [scenarioDated 0 0, scenarioUndated 1, scenarioUndated 2, scenarioUndated 3]
        "O" "D" 0).map Milestone.status =
      [MilestoneStatus.completed, MilestoneStatus.current,
       MilestoneStatus.upcoming, MilestoneStatus.upcoming] :=
  ⟨le_refl 0,
    (milestone_status_classification (scenarioUndated 1) 0 [] "O" "D" 0 0).2.2.2 (le_refl 0)⟩

/-- A route stop of the ShipmentCard component (location, date, status,
milestone name). -/
structure RouteStop where
  location : String
  date : Option ℤ
  status : MilestoneStatus
  milestoneName : String

/-- completedStops of ShipmentCard: number of completed stops. -/
def completedStops (stops : List RouteStop) : ℕ :=
  (stops.filter fun s => decide (s.status = MilestoneStatus.completed)).length

/-- currentStopIndex of ShipmentCard: findIndex of the current stop, -1 when
absent. -/
def currentStopIndex (stops : List RouteStop) : ℤ :=
  match stops.findIdx? (fun s => decide (s.status = MilestoneStatus.current)) with
  | some i => (i : ℤ)
  | none => -1

/-- lastReachedIndex of ShipmentCard: the current index when one exists,
else the completed count minus one. -/
def lastReachedIndex (stops : List RouteStop) : ℤ :=
  if currentStopIndex stops ≥ 0 then currentStopIndex stops
  else (completedStops stops : ℤ) - 1

/-- The progress percentage computed by ShipmentCard. -/
def shipmentCardProgress (stops : List RouteStop) : ℚ :=
  if stops.length > 0 ∧ lastReachedIndex stops ≥ 0 then
    ((lastReachedIndex stops + 1 : ℤ) : ℚ) / (stops.length : ℚ) * 100
  else 0

/-- computeProgress: the 0..1 progress fraction of the spec; the card
renders it as a percentage, so it is the card progress divided by 100. -/
def computeProgress (stops : List RouteStop) : ℚ := shipmentCardProgress stops / 100

/-- The last reached index never drops below -1. -/
lemma lastReachedIndex_ge (stops : List RouteStop) : -1 ≤ lastReachedIndex stops := by
  unfold lastReachedIndex
  split_ifs with h
  · omega
  · have : (0 : ℤ) ≤ (completedStops stops : ℤ) := Int.natCast_nonneg _
    omega

/-- The last reached index stays below the stop count. -/
lemma lastReachedIndex_lt (stops : List RouteStop) :
    lastReachedIndex stops < (stops.length : ℤ) := by
  unfold lastReachedIndex currentStopIndex
  cases hf : stops.findIdx? (fun s => decide (s.status = MilestoneStatus.current)) with
  | none =>
    simp only [hf]
    have hc : completedStops stops ≤ stops.length := List.length_filter_le _ _
    split_ifs with h
    · omega
    · omega
  | some i =>
    simp only [hf]
    have hi : i < stops.length := (List.findIdx?_eq_some_iff_getElem.mp hf).1
    split_ifs with h
    · exact_mod_cast hi
    · have : (0 : ℤ) ≤ (completedStops stops : ℤ) := Int.natCast_nonneg _
      have hc : completedStops stops ≤ stops.length := List.length_filter_le _ _
      omega

/-- C4 (amended): the progress fraction always equals
(lastReachedIndex + 1) / totalStops (with the 0-guard of the card absorbed
by rational division), lies in [0,1], is 0 when no stop is completed or
current, and is 1 when the list is non-empty and every stop is completed. -/
theorem progress_formula_and_bounds (stops : List RouteStop) :
    computeProgress stops =
      ((lastReachedIndex stops + 1 : ℤ) : ℚ) / (stops.length : ℚ) ∧
    (0 ≤ computeProgress stops ∧ computeProgress stops ≤ 1) ∧
    ((∀ s ∈ stops, s.status ≠ MilestoneStatus.completed ∧
        s.status ≠ MilestoneStatus.current) → computeProgress stops = 0) ∧
    (stops ≠ [] → (∀ s ∈ stops, s.status = MilestoneStatus.completed) →
      computeProgress stops = 1) := by
  have hge := lastReachedIndex_ge stops
  have hlt := lastReachedIndex_lt stops
  have hform : computeProgress stops =
      ((lastReachedIndex stops + 1 : ℤ) : ℚ) / (stops.length : ℚ) := by
    unfold computeProgress shipmentCardProgress
    split_ifs with h
    · rw [mul_div_assoc]
      norm_num
    · push_neg at h
      rcases Nat.eq_zero_or_pos stops.length with h0 | hpos
      · rw [h0]
        norm_num
      · have hlr : lastReachedIndex stops = -1 := by
          have := h hpos
          omega
        rw [hlr]
        norm_num
  refine ⟨hform, ⟨?_, ?_⟩, ?_, ?_⟩
  · rw [hform]
    have h1 : (0 : ℚ) ≤ ((lastReachedIndex stops + 1 : ℤ) : ℚ) := by
      exact_mod_cast by omega
    exact div_nonneg h1 (Nat.cast_nonneg _)
  · rw [hform]
    rcases Nat.eq_zero_or_pos stops.length with h0 | hpos
    · rw [h0]
      norm_num
    · have hn : (0 : ℚ) < (stops.length : ℚ) := by exact_mod_cast hpos
      rw [div_le_one hn]
      exact_mod_cast by omega
  · intro hall
    have hcur : currentStopIndex stops = -1 := by
      unfold currentStopIndex
      rw [List.findIdx?_eq_none_iff.mpr fun x hx => by
        simpa using (hall x hx).2]
    have hcomp : completedStops stops = 0 := by
      unfold completedStops
      rw [List.filter_eq_nil_iff.mpr fun x hx => by
        simpa using (hall x hx).1]
      rfl
    unfold computeProgress shipmentCardProgress lastReachedIndex
    rw [hcur, hcomp]
    norm_num
  · intro hne hall
    have hcur : currentStopIndex stops = -1 := by
      unfold currentStopIndex
      rw [List.findIdx?_eq_none_iff.mpr fun x hx => by
        simp [hall x hx]]
    have hcomp : completedStops stops = stops.length := by
      unfold completedStops
      rw [List.filter_eq_self.mpr fun x hx => by
        simp [hall x hx]]
    have hpos : 0 < stops.length := List.length_pos.mpr hne
    unfold computeProgress shipmentCardProgress lastReachedIndex
    rw [hcur, hcomp]
    have hcond : stops.length > 0 ∧
        (if (-1 : ℤ) ≥ 0 then (-1 : ℤ) else (stops.length : ℤ) - 1) ≥ 0 := by
      constructor
      · exact hpos
      · rw [if_neg (by omega)]
        omega
    rw [if_pos hcond, if_neg (by omega : ¬((-1 : ℤ) ≥ 0))]
    have hq : ((stops.length : ℚ)) ≠ 0 := by
      exact_mod_cast hpos.ne.symm
    field_simp

/-- A stop with the given status and fixed text fields. -/
def stopWith (st : MilestoneStatus) : RouteStop :=
  { location := "L", date := none, status := st, milestoneName := "N" }

/-- Witness for progress_formula_and_bounds: the zero case on an
all-upcoming list and the one case on an all-completed list. -/
theorem progress_formula_and_bounds_witness :
    computeProgress [stopWith MilestoneStatus.upcoming] = 0 ∧
    computeProgress [stopWith MilestoneStatus.completed] = 1 :=
  ⟨(progress_formula_and_bounds [stopWith MilestoneStatus.upcoming]).2.2.1
      (by simp [stopWith]),
   (progress_formula_and_bounds [stopWith MilestoneStatus.completed]).2.2.2
      (by simp) (by simp [stopWith])⟩

/-- C4 (counterexample): a list whose last stop is completed but whose
earlier stops are upcoming has progress 1/4, not 1 — completing the last
milestone alone does not drive the fraction to 1. -/
theorem progress_last_completed_not_one :
    [stopWith MilestoneStatus.upcoming, stopWith MilestoneStatus.upcoming,
     stopWith MilestoneStatus.upcoming, stopWith MilestoneStatus.completed].getLast? =
      some (stopWith MilestoneStatus.completed) ∧
    computeProgress
      [stopWith MilestoneStatus.upcoming, stopWith MilestoneStatus.upcoming,
       stopWith MilestoneStatus.upcoming, stopWith MilestoneStatus.completed] = 1 / 4 ∧
    (1 / 4 : ℚ) ≠ 1 := by
  refine ⟨rfl, ?_, by norm_num⟩
  have h1 : currentStopIndex
      [stopWith MilestoneStatus.upcoming, stopWith MilestoneStatus.upcoming,
       stopWith MilestoneStatus.upcoming, stopWith MilestoneStatus.completed] = -1 := rfl
  have h2 : completedStops
      [stopWith MilestoneStatus.upcoming, stopWith MilestoneStatus.upcoming,
       stopWith MilestoneStatus.upcoming, stopWith MilestoneStatus.completed] = 1 := rfl
  unfold computeProgress shipmentCardProgress lastReachedIndex
  rw [h1, h2]
  norm_num

/-- The name-based filter of routeStops in ShipmentCard: keep milestones
whose lowercased name mentions one of the four canonical stops. -/
def isCoreMilestone (m : Milestone) : Bool :=
  let name := jsToLower m.name
  strIncludes name "empty" || strIncludes name "departure" ||
    strIncludes name "arrival" || strIncludes name "delivery"

/-- The getOrder helper of the routeStops comparator. -/
def getOrder (name : String) : ℤ :=
  let n := jsToLower name
  if strIncludes n "empty" then 0
  else if strIncludes n "departure" then 1
  else if strIncludes n "arrival" then 2
  else if strIncludes n "delivery" then 3
  else 99

/-- The canonical placeholder names used while padding. -/
def milestoneNames : List String :=
  ["Empty to shipper", "Departure from first POL",
   "Arrival at final POD", "Delivery to consignee"]

/-- The placeholder pushed when fewer than 4 stops exist; the first two
positions take the origin, the last two the destination. -/
def placeholder (missingIndex : ℕ) (origin destination : String) : RouteStop :=
  { location := if missingIndex < 2 then origin else destination
    date := none
    status := MilestoneStatus.upcoming
    milestoneName := milestoneNames.getD missingIndex "Unknown" }

/-- The while loop of routeStops: push placeholders until 4 stops exist. -/
def padStops (origin destination : String) (stops : List RouteStop) : List RouteStop :=
  if stops.length < 4 then
    padStops origin destination (stops ++ [placeholder stops.length origin destination])
  else stops
termination_by 4 - stops.length
decreasing_by simp; omega

/-- routeStops of ShipmentCard: filter to the four canonical milestone
kinds, sort by canonical order (the JavaScript sort is modelled by the
stable merge sort), map to stops, pad to 4 and slice to exactly 4. -/
def routeStops (milestones : List Milestone) (origin destination : String) :
    List RouteStop :=
  let coreMilestones := (milestones.filter isCoreMilestone).mergeSort
    (fun a b => decide (getOrder a.name ≤ getOrder b.name))
  let stops := coreMilestones.map fun m =>
    ({ location := m.location, date := some m.date, status := m.status
       milestoneName := m.name } : RouteStop)
  (padStops origin destination stops).take 4

/-- Padding yields the longer of the input length and 4. -/
lemma padStops_length (origin destination : String) :
    ∀ (k : ℕ) (stops : List RouteStop), 4 - stops.length ≤ k →
      (padStops origin destination stops).length = max stops.length 4 := by
  intro k
  induction k with
  | zero =>
    intro stops hk
    rw [padStops, if_neg (by omega)]
    omega
  | succ k ih =>
    intro stops hk
    by_cases hlt : stops.length < 4
    · rw [padStops, if_pos hlt]
      rw [ih _ (by simp; omega)]
      simp
      omega
    · rw [padStops, if_neg hlt]
      omega

/-- Padding preserves the existing entries. -/
lemma padStops_getElem_left (origin destination : String) :
    ∀ (k : ℕ) (stops : List RouteStop), 4 - stops.length ≤ k →
      ∀ j, j < stops.length →
        (padStops origin destination stops)[j]? = stops[j]? := by
  intro k
  induction k with
  | zero =>
    intro stops hk j hj
    rw [padStops, if_neg (by omega)]
  | succ k ih =>
    intro stops hk j hj
    by_cases hlt : stops.length < 4
    · rw [padStops, if_pos hlt]
      rw [ih _ (by simp; omega) j (by simp; omega)]
      exact List.getElem?_append_left hj
    · rw [padStops, if_neg hlt]

/-- Padding fills position j with placeholder j for indices past the input. -/
lemma padStops_getElem_placeholder (origin destination : String) :
    ∀ (k : ℕ) (stops : List RouteStop), 4 - stops.length ≤ k →
      ∀ j, stops.length ≤ j → j < 4 →
        (padStops origin destination stops)[j]? =
          some (placeholder j origin destination) := by
  intro k
  induction k with
  | zero =>
    intro stops hk j hj1 hj2
    omega
  | succ k ih =>
    intro stops hk j hj1 hj2
    have hlt : stops.length < 4 := by omega
    rw [padStops, if_pos hlt]
    rcases Nat.eq_or_lt_of_le hj1 with heq | hgt
    · rw [padStops_getElem_left origin destination k _ (by simp; omega) j (by simp; omega)]
      rw [← heq]
      exact List.getElem?_concat_length _ _
    · exact ih _ (by simp; omega) j (by simp; omega) hj2

/-- C5 (amended): routeStops always yields exactly 4 stops; positions past
the surviving core milestones carry synthesized placeholders with the origin
on the first two positions, the destination on the last two, no date and
upcoming status.  (For 4 or more core records the output is still sliced to
4, so records beyond the fourth are dropped.) -/
theorem route_stops_exactly_four (milestones : List Milestone)
    (origin destination : String) :
    (routeStops milestones origin destination).length = 4 ∧
    (∀ j, (milestones.filter isCoreMilestone).length ≤ j → j < 4 →
      (routeStops milestones origin destination)[j]? =
        some (placeholder j origin destination)) := by
  unfold routeStops
  dsimp only
  constructor
  · rw [List.length_take, padStops_length origin destination 4 _ (by omega)]
    omega
  · intro j hj1 hj2
    rw [List.getElem?_take, if_pos hj2]
    refine padStops_getElem_placeholder origin destination 4 _ (by omega) j ?_ hj2
    rw [List.length_map, List.length_mergeSort]
    exact hj1

/-- Witness for route_stops_exactly_four: an empty milestone list yields the
four placeholders. -/
theorem route_stops_exactly_four_witness :
    (routeStops [] "O" "D").length = 4 ∧
    (routeStops [] "O" "D")[0]? = some (placeholder 0 "O" "D") ∧
    (routeStops [] "O" "D")[1]? = some (placeholder 1 "O" "D") ∧
    (routeStops [] "O" "D")[2]? = some (placeholder 2 "O" "D") ∧
    (routeStops [] "O" "D")[3]? = some (placeholder 3 "O" "D") :=
  ⟨(route_stops_exactly_four [] "O" "D").1,
   (route_stops_exactly_four [] "O" "D").2 0 (by simp) (by omega),
   (route_stops_exactly_four [] "O" "D").2 1 (by simp) (by omega),
   (route_stops_exactly_four [] "O" "D").2 2 (by simp) (by omega),
   (route_stops_exactly_four [] "O" "D").2 3 (by simp) (by omega)⟩

/-- A milestone whose name matches the departure filter. -/
def sampleDeparture : Milestone :=
  { id := "m", name := "Departure from POL", date := 0, location := "X"
    status := MilestoneStatus.completed }

/-- C5 (counterexample): five core milestone records survive the name
filter, yet routeStops still returns 4 stops, so for lists of length at
least 4 the output count does not equal the input count. -/
theorem route_stops_drop_beyond_four :
    (List.replicate 5 sampleDeparture).length = 5 ∧
    ((List.replicate 5 sampleDeparture).filter isCoreMilestone).length = 5 ∧
    (routeStops (List.replicate 5 sampleDeparture) "O" "D").length = 4 ∧
    (4 : ℕ) ≠ 5 := by
  refine ⟨by simp, by decide, ?_, by decide⟩
  unfold routeStops
  dsimp only
  rw [List.length_take, padStops_length "O" "D" 4 _ (by omega)]
  omega

/-- RoutePoint from src/utils/shipmentData.ts. -/
structure RoutePoint where
  coords : ℝ × ℝ
  milestone : Option Milestone
  index : ℤ
  location : Option String

/-- A milestone record of the details feed (only the fields read by the
route builder). -/
structure DetailsMilestone where
  location : Option String
  latitude : Option ℝ
  longitude : Option ℝ
  start_date : Option ℤ

/-- The details feed record for one shipment. -/
structure ShipmentDetailsData where
  id : String
  shipment_milestones : List DetailsMilestone

/-- The shipment fields read by getShipmentRouteCoordinates. -/
structure Shipment where
  id : String
  orderNumber : String
  origin : String
  destination : String

/-- Tier-1 route points: completed_route then remaining_route with a running
index, labelled with their segment. -/
def trackingRoutePoints (td : ShipmentTrackingData) : List RoutePoint :=
  (td.route_coordinates.completed_route.enum.map fun p =>
    ({ coords := p.2, milestone := none, index := (p.1 : ℤ)
       location := some "Completed Route" } : RoutePoint)) ++
  (td.route_coordinates.remaining_route.enum.map fun p =>
    ({ coords := p.2, milestone := none
       index := (td.route_coordinates.completed_route.length : ℤ) + (p.1 : ℤ)
       location := some "Remaining Route" } : RoutePoint))

/-- Ordering used to model the date sort of the details milestones: missing
dates sort last (the JavaScript comparator returns 1 for a missing left
date, -1 for a missing right date, else the time difference). -/
def detailsDateLe (a b : DetailsMilestone) : Bool :=
  match a.start_date, b.start_date with
  | none, _ => false
  | some _, none => true
  | some x, some y => decide (x ≤ y)

/-- The forEach loop that pushes each port point followed by the synthesized
sea waypoints toward the next port (index i*100 + w + 1, Sea Route label). -/
noncomputable def interleaveSea : List RoutePoint → ℕ → List RoutePoint
  | [], _ => []
  | [p], _ => [p]
  | p :: q :: rest, i =>
    p :: (((calculateSeaWaypoints p.coords q.coords).enum.map fun w =>
      ({ coords := w.2, milestone := none, index := ((i : ℤ) * 100 + (w.1 : ℤ) + 1)
         location := some "Sea Route" } : RoutePoint)) ++ interleaveSea (q :: rest) (i + 1))

/-- getShipmentRouteCoordinatesFromDetails from src/utils/shipmentData.ts:
empty unless the details record matches the shipment id; keep milestones
with a location, sort by date (missing dates last), take explicit lat/lng or
resolve the location text, then interleave sea waypoints. -/
noncomputable def getShipmentRouteCoordinatesFromDetails (shipmentId : String)
    (detailsData : ShipmentDetailsData) : List RoutePoint :=
  if detailsData.id ≠ shipmentId then []
  else
    let milestonesWithLocation :=
      detailsData.shipment_milestones.filter fun m => m.location.isSome
    let sorted := milestonesWithLocation.mergeSort detailsDateLe
    let portPoints := sorted.enum.filterMap fun p =>
      let coords : Option (ℝ × ℝ) :=
        match p.2.latitude, p.2.longitude with
        | some la, some lo => some (la, lo)
        | _, _ => (getLocationCoordinates (p.2.location.getD "")).map fun c =>
            ((c.1 : ℝ), (c.2 : ℝ))
      coords.map fun c =>
        ({ coords := c, milestone := none, index := (p.1 : ℤ)
           location := some (jsOrString p.2.location "Unknown") } : RoutePoint)
    interleaveSea portPoints 0

/-- extractCountry from src/utils/shipmentData.ts: the trailing
comma-segment, falling back to the whole string when empty. -/
def extractCountry (location : String) : String :=
  let parts := ((location.data.splitOn ',').map fun l => jsTrim ⟨l⟩)
  let last := parts.getLastD ""
  if last = "" then location else last

/-- getCoastalPoint from src/utils/shipmentData.ts: approximate major-port
coordinates per country, origin/destination dependent for China and the
USA; exact match then partial match. -/
def getCoastalPoint (country : String) (isOrigin : Bool) : Option (ℚ × ℚ) :=
  let coastalPoints : List (String × ℚ × ℚ) :=
    [("CHINA", if isOrigin then ((31.2304 : ℚ), (121.4737 : ℚ)) else (36.0667, 120.3833)),
     ("PAKISTAN", 24.8607, 67.0011),
     ("UAE", 25.2048, 55.2708),
     ("UNITED ARAB EMIRATES", 25.2048, 55.2708),
     ("THAILAND", 13.0833, 100.8833),
     ("SOUTH KOREA", 35.1796, 129.0756),
     ("KOREA", 35.1796, 129.0756),
     ("USA", if isOrigin then ((34.0522 : ℚ), (-118.2437 : ℚ)) else (40.7128, -74.0060)),
     ("UNITED STATES", if isOrigin then ((34.0522 : ℚ), (-118.2437 : ℚ)) else (40.7128, -74.0060)),
     ("BRAZIL", -23.9608, -46.3331),
     ("INDIA", 19.0760, 72.8777),
     ("QATAR", 25.2854, 51.5310)]
  let normalized := jsTrim (jsToUpper country)
  match coastalPoints.find? fun e => e.1 == normalized with
  | some e => some e.2
  | none =>
    (coastalPoints.find? fun e =>
      strIncludes normalized e.1 || strIncludes e.1 normalized).map (·.2)

/-- Tier-3 calculated route: origin, optional origin coastal point
(when more than 0.5 degrees away), synthesized sea waypoints between the two
coastal points, optional destination coastal point, destination. -/
noncomputable def calculatedRoutePoints (shipment : Shipment) : List RoutePoint :=
  match getLocationCoordinates shipment.origin, getLocationCoordinates shipment.destination with
  | some originCoords, some destCoords =>
    let originCountry := extractCountry shipment.origin
    let destCountry := extractCountry shipment.destination
    let originCoastal := (getCoastalPoint originCountry true).getD originCoords
    let destCoastal := (getCoastalPoint destCountry false).getD destCoords
    let originR : ℝ × ℝ := ((originCoords.1 : ℝ), (originCoords.2 : ℝ))
    let destR : ℝ × ℝ := ((destCoords.1 : ℝ), (destCoords.2 : ℝ))
    let originCoastalR : ℝ × ℝ := ((originCoastal.1 : ℝ), (originCoastal.2 : ℝ))
    let destCoastalR : ℝ × ℝ := ((destCoastal.1 : ℝ), (destCoastal.2 : ℝ))
    let coastal1 : List RoutePoint :=
      if |originCoastal.1 - originCoords.1| > 0.5 ∨ |originCoastal.2 - originCoords.2| > 0.5 then
        [{ coords := originCoastalR, milestone := none, index := 1, location := none }]
      else []
    let idxAfterCoastal1 : ℤ := 1 + coastal1.length
    let seaPoints := (calculateSeaWaypoints originCoastalR destCoastalR).enum.map fun w =>
      ({ coords := w.2, milestone := none, index := idxAfterCoastal1 + (w.1 : ℤ)
         location := none } : RoutePoint)
    let idxAfterSea : ℤ := idxAfterCoastal1 + seaPoints.length
    let coastal2 : List RoutePoint :=
      if |destCoastal.1 - destCoords.1| > 0.5 ∨ |destCoastal.2 - destCoords.2| > 0.5 then
        [{ coords := destCoastalR, milestone := none, index := idxAfterSea, location := none }]
      else []
    [({ coords := originR, milestone := none, index := 0, location := none } : RoutePoint)] ++
      coastal1 ++ seaPoints ++ coastal2 ++
      [{ coords := destR, milestone := none, index := idxAfterSea + coastal2.length
         location := none }]
  | _, _ => []

/-- Tiers 2 and 3 of getShipmentRouteCoordinates: the details route when it
yields points, else the calculated route. -/
noncomputable def detailsOrCalculated (detailsData : ShipmentDetailsData)
    (shipment : Shipment) : List RoutePoint :=
  let detailsRoute := getShipmentRouteCoordinatesFromDetails shipment.id detailsData
  if detailsRoute.length > 0 then detailsRoute
  else calculatedRoutePoints shipment

/-- getShipmentRouteCoordinates from src/utils/shipmentData.ts: tracking
feed first (when it yields at least one point), then the details feed, then
the calculated route. -/
noncomputable def getShipmentRouteCoordinates (trackingData : Option ShipmentTrackingData)
    (detailsData : ShipmentDetailsData) (shipment : Shipment) : List RoutePoint :=
  match trackingData with
  | some td =>
    let routePoints := trackingRoutePoints td
    if routePoints.length > 0 then routePoints
    else detailsOrCalculated detailsData shipment
  | none => detailsOrCalculated detailsData shipment

/-- The tier-1 point count is the sum of the two polyline lengths. -/
lemma trackingRoutePoints_length (td : ShipmentTrackingData) :
    (trackingRoutePoints td).length =
      td.route_coordinates.completed_route.length +
        td.route_coordinates.remaining_route.length := by
  unfold trackingRoutePoints
  simp

/-- C2: when the tracking feed is present and yields at least one route
coordinate, getShipmentRouteCoordinates returns exactly the tier-1 points
built from completed_route and remaining_route, for every details feed and
shipment — the later tiers are never consulted. -/
theorem fusion_tracking_priority (td : ShipmentTrackingData)
    (h : td.route_coordinates.completed_route ≠ [] ∨
      td.route_coordinates.remaining_route ≠ []) :
    ∀ (detailsData : ShipmentDetailsData) (shipment : Shipment),
      getShipmentRouteCoordinates (some td) detailsData shipment =
        trackingRoutePoints td := by
  intro detailsData shipment
  unfold getShipmentRouteCoordinates
  dsimp only
  rw [if_pos]
  rw [trackingRoutePoints_length]
  rcases h with h | h
  · have := List.length_pos.mpr h
    omega
  · have := List.length_pos.mpr h
    omega

/-- Tracking feed sample for the fusion priority witness. -/
noncomputable def sampleFusionTracking : ShipmentTrackingData :=
  { shipment_order_number := "SO2"
    shipment_id := "S2"
    shipment_status := "in_transit"
    route_info :=
      { origin := { port_name := "A", port_code := "A1", latitude := 0, longitude := 0 }
        destination := { port_name := "B", port_code := "B1", latitude := 1, longitude := 1 }
        transshipment_ports := [] }
    route_coordinates := { completed_route := [(1, 1)], remaining_route := [(2, 2)] }
    current_position :=
      { latitude := 1, longitude := 1, location_name := "sea", timestamp := "t"
        vessel_name := none, vessel_imo := none, status := "sailing" } }

/-- A details record for a different shipment with its own milestones. -/
def sampleFusionDetails : ShipmentDetailsData :=
  { id := "S2"
    shipment_milestones :=
      [{ location := some "SINGAPORE", latitude := none, longitude := none
         start_date := some 0 }] }

/-- The shipment record the fusion witness runs on. -/
def sampleFusionShipment : Shipment :=
  { id := "S2", orderNumber := "SO2"
    origin := "Shanghai, China", destination := "Los Angeles, USA" }

/-- Witness for fusion_tracking_priority: with both a tracking feed and a
matching details feed available, the output is the tier-1 route. -/
theorem fusion_tracking_priority_witness :
    (sampleFusionTracking.route_coordinates.completed_route ≠ [] ∨
      sampleFusionTracking.route_coordinates.remaining_route ≠ []) ∧
    getShipmentRouteCoordinates (some sampleFusionTracking) sampleFusionDetails
        sampleFusionShipment =
      trackingRoutePoints sampleFusionTracking :=
  ⟨Or.inl (by simp [sampleFusionTracking]),
   fusion_tracking_priority sampleFusionTracking
     (Or.inl (by simp [sampleFusionTracking])) sampleFusionDetails sampleFusionShipment⟩
